import Mathlib

set_option maxHeartbeats 1000000

/-!
Shallow embedding of the cli-api command-registration and dispatch layer
(src/components/cli-api/cli-api.c, src/components/cli-api/include/cli-api.h).

Modelling conventions:
* C strings are Option String (none = NULL pointer).
* Function pointers are abstract identifiers (Option Nat, none = NULL).
* The visible registry state is the prefix s_registered_cmds[0 .. s_cmd_count)
  together with a count of parser nodes currently allocated on the heap
  (live): every successful argtable3 constructor call adds one node, every
  free removes one, so a net increase across a call is a leak.
* External collaborators (argtable3 allocation success, the result of
  esp_console_cmd_register, and the outcome of arg_parse) are oracles passed
  in as parameters, since their code is outside this repository.
-/

/-- Maximum number of arguments per command (CLI_MAX_ARGS in cli-api.h). -/
def CLI_MAX_ARGS : Nat := 8

/-- Maximum number of registered commands (CLI_MAX_COMMANDS in cli-api.h). -/
def CLI_MAX_COMMANDS : Nat := 32

/-- Return codes of the registration surface (esp_err_t values the code
produces or passes through): ok = ESP_OK, invalidArg = ESP_ERR_INVALID_ARG,
noMem = ESP_ERR_NO_MEM, fail n = any other esp_err_t code coming back from
the console engine. -/
inductive EspErr
  | ok
  | invalidArg
  | noMem
  | fail (n : Nat)
deriving DecidableEq, Repr

/-- Argument kinds (cli_arg_type_t). A C enum variable may hold a value
outside the three declared enumerators; `other n` models such a value, which
the registration switch sends to its default branch. -/
inductive CliArgType
  | int
  | string
  | flag
  | other (n : Nat)
deriving DecidableEq, Repr

/-- Argument descriptor (cli_arg_t). -/
structure CliArg where
  short_opt : Option String
  long_opt : Option String
  datatype : Option String
  description : Option String
  type : CliArgType
  required : Bool
deriving DecidableEq, Repr

/-- Command descriptor (cli_command_t). The callback function pointer is an
abstract identifier; arg_count is args.length. -/
structure CliCommand where
  name : Option String
  description : Option String
  hint : Option String
  callback : Option Nat
  args : List CliArg
deriving DecidableEq, Repr

/-- Compiled argtable3 parser node. The constructor used by the source is
determined by the argument kind and the required flag: arg_int1 / arg_int0
(intNode true / intNode false), arg_str1 / arg_str0 (strNode), arg_lit1 /
arg_lit0 (litNode); endNode n models arg_end(n). -/
inductive ArgNode
  | intNode (required : Bool) (short_opt long_opt datatype description : Option String)
  | strNode (required : Bool) (short_opt long_opt datatype description : Option String)
  | litNode (required : Bool) (short_opt long_opt description : Option String)
  | endNode (maxcount : Nat)
deriving DecidableEq, Repr

/-- One slot of s_registered_cmds (cli_registered_cmd_t). The argtable holds
Option ArgNode because the source stores the result of arg_end without a
null check; for a zero-argument command the table is never populated at all,
modelled as the empty list. -/
structure RegisteredCmd where
  cmd_def : CliCommand
  argtable : List (Option ArgNode)
  arg_count : Nat
deriving DecidableEq, Repr

/-- The module state the claims observe: the visible registry
(s_registered_cmds[0 .. s_cmd_count), as a list) and the number of parser
nodes currently allocated and not freed. -/
structure CliState where
  regCmds : List RegisteredCmd
  live : Nat
deriving DecidableEq, Repr

/-- Result of one argtable3 constructor call in the registration loop body:
the switch on arg->type either hits the default branch (invalidType, before
any constructor runs), or runs the constructor selected by (kind, required),
which returns NULL on allocation failure (allocFail) or a node. -/
inductive NodeRes
  | invalidType
  | allocFail
  | node (n : ArgNode)
deriving DecidableEq, Repr

/-- One iteration of the registration loop of cli_register_command: the
switch over arg->type, selecting the argtable3 constructor by kind and the
required flag, with allocSucceeds telling whether that constructor call
returns a node or NULL. -/
def constructNode (a : CliArg) (allocSucceeds : Bool) : NodeRes :=
  match a.type with
  | .int =>
    if allocSucceeds then
      .node (.intNode a.required a.short_opt a.long_opt a.datatype a.description)
    else .allocFail
  | .string =>
    if allocSucceeds then
      .node (.strNode a.required a.short_opt a.long_opt a.datatype a.description)
    else .allocFail
  | .flag =>
    if allocSucceeds then
      .node (.litNode a.required a.short_opt a.long_opt a.description)
    else .allocFail
  | .other _ => .invalidType

/-- Outcome of the whole argument loop of cli_register_command.
invalidType leaked: the default branch was hit; leaked is the number of
nodes already constructed at that point, which the source returns without
freeing. allocFail: a constructor returned NULL; the source frees every
earlier node, so the net heap effect is zero. done nodes: every argument
produced a node. -/
inductive CompileRes
  | invalidType (leaked : Nat)
  | allocFail
  | done (nodes : List ArgNode)
deriving DecidableEq, Repr

/-- The argument loop of cli_register_command (lines 552-605 of cli-api.c),
iterating over the declared arguments in order; i is the absolute index of
the current argument and allocOk i tells whether the constructor call for
argument i succeeds. -/
def compileArgs (allocOk : Nat → Bool) : List CliArg → Nat → CompileRes
  | [], _ => .done []
  | a :: rest, i =>
    match constructNode a (allocOk i) with
    | .invalidType => .invalidType i
    | .allocFail => .allocFail
    | .node n =>
      match compileArgs allocOk rest (i + 1) with
      | .done ns => .done (n :: ns)
      | .invalidType j => .invalidType j
      | .allocFail => .allocFail

/-- cli_register_command (cli-api.c lines 515-631). cmd none models a NULL
descriptor pointer. allocOk is the allocation oracle for the argtable3
constructors (index args.length is the arg_end call, whose result the
source stores without a null check). consoleRet is the value the external
esp_console_cmd_register call would return for this command.

Control flow mirrored from the source: null checks, capacity check, then
either the zero-argument path (which stores the slot and increments the
count BEFORE calling esp_console_cmd_register, and returns that call's
result), or the argument loop, arg_end, and the console registration with
arg_freetable rollback on its failure. -/
def cli_register_command (cmd : Option CliCommand) (allocOk : Nat → Bool)
    (consoleRet : EspErr) (s : CliState) : EspErr × CliState :=
  match cmd with
  | none => (.invalidArg, s)
  | some c =>
    if c.name = none ∨ c.callback = none then (.invalidArg, s)
    else if CLI_MAX_COMMANDS ≤ s.regCmds.length then (.noMem, s)
    else if c.args.length = 0 then
      (consoleRet,
        { s with regCmds := s.regCmds ++ [{ cmd_def := c, argtable := [], arg_count := 0 }] })
    else
      match compileArgs allocOk c.args 0 with
      | .invalidType leaked => (.invalidArg, { s with live := s.live + leaked })
      | .allocFail => (.noMem, s)
      | .done nodes =>
        let k := c.args.length
        let endSlot : Option ArgNode :=
          if allocOk k then some (.endNode (k + 1)) else none
        let table := nodes.map some ++ [endSlot]
        if consoleRet = .ok then
          (.ok,
            { regCmds := s.regCmds ++ [{ cmd_def := c, argtable := table, arg_count := k }],
              live := s.live + nodes.length + (if allocOk k then 1 else 0) })
        else (consoleRet, s)

/-- cli_register_simple_command (cli-api.c lines 633-654): null checks, then
a direct esp_console_cmd_register call. It never touches s_registered_cmds,
s_cmd_count or the argtable3 heap, so the state is returned unchanged. -/
def cli_register_simple_command (name description : Option String)
    (callback : Option Nat) (consoleRet : EspErr) (s : CliState) : EspErr × CliState :=
  if name = none ∨ callback = none then (.invalidArg, s)
  else (consoleRet, s)

/-- The sequential loop of cli_register_commands: registers each descriptor
in order with its own oracles (indexed by position in the list), stopping at
the first result that is not ok and returning it. -/
def registerSeq (allocOks : Nat → Nat → Bool) (consoleRets : Nat → EspErr) :
    List CliCommand → Nat → CliState → EspErr × CliState
  | [], _, s => (.ok, s)
  | c :: rest, i, s =>
    let r := cli_register_command (some c) (allocOks i) (consoleRets i) s
    if r.1 = .ok then registerSeq allocOks consoleRets rest (i + 1) r.2 else r

/-- cli_register_commands (cli-api.c lines 656-674): rejects a NULL list or
a zero count before registering anything, otherwise runs the sequential
loop. -/
def cli_register_commands (commands : Option (List CliCommand))
    (allocOks : Nat → Nat → Bool) (consoleRets : Nat → EspErr)
    (s : CliState) : EspErr × CliState :=
  match commands with
  | none => (.invalidArg, s)
  | some l =>
    if l.length = 0 then (.invalidArg, s)
    else registerSeq allocOks consoleRets l 0 s

/-- Post-parse state of one argtable3 node, as read back by the dispatch
wrapper: the occurrence count and, for the slots the wrapper reads when the
count is positive, the first parsed integer (ival[0]) and the first parsed
string (sval[0]). -/
structure ParsedArg where
  count : Nat
  ival0 : Int
  sval0 : String
deriving DecidableEq, Repr

/-- Outcome of the external arg_parse call for one dispatch: the error count
it returns and the post-parse state of each argument node, indexed by the
argument's position in the declared list. arg_parse is argtable3 code
outside this repository, so its outcome is an oracle. -/
structure ParseResult where
  nerrors : Nat
  argStates : Nat → ParsedArg

/-- Parsed argument values passed to the callback (cli_arg_value_t). The C
struct is not a union; the context is declared with designated initializers,
so every field the extraction switch does not write stays zero-initialized
(0 / NULL / false). -/
structure CliArgValue where
  int_value : Int
  str_value : Option String
  flag_value : Bool
  count : Nat
deriving DecidableEq, Repr

/-- Context passed to the command callback (cli_context_t). args holds the
extracted values for the declared arguments, index-aligned with the
descriptor's argument list. -/
structure CliContext where
  argc : Nat
  argv : List String
  args : List CliArgValue
  arg_count : Nat
deriving DecidableEq, Repr

/-- The extraction switch of cli_command_wrapper (cli-api.c lines 481-509)
for one argument slot: writes count and the kind-specific field selected by
the declared argument kind; the other fields keep their zero initialization.
An out-of-range kind matches no case, leaving the whole slot zeroed. -/
def extractArg : CliArgType → ParsedArg → CliArgValue
  | .int, st =>
    { int_value := if 0 < st.count then st.ival0 else 0
      str_value := none, flag_value := false, count := st.count }
  | .string, st =>
    { int_value := 0
      str_value := if 0 < st.count then some st.sval0 else none
      flag_value := false, count := st.count }
  | .flag, st =>
    { int_value := 0, str_value := none
      flag_value := decide (0 < st.count), count := st.count }
  | .other _, _ =>
    { int_value := 0, str_value := none, flag_value := false, count := 0 }

/-- The body of the extraction loop of cli_command_wrapper, iterating over
the declared arguments with i the absolute index of the current one. -/
def mkContextArgsAux (pr : ParseResult) : List CliArg → Nat → List CliArgValue
  | [], _ => []
  | a :: rest, i => extractArg a.type (pr.argStates i) :: mkContextArgsAux pr rest (i + 1)

/-- The extraction loop of cli_command_wrapper: one CliArgValue per declared
argument, in declared order, each read from the corresponding parser node's
post-parse state. -/
def mkContextArgs (cmd : CliCommand) (pr : ParseResult) : List CliArgValue :=
  mkContextArgsAux pr cmd.args 0

/-- The context construction of cli_command_wrapper (cli-api.c lines
473-509): original argc/argv, the extracted values, and the declared
argument count. -/
def mkContext (argc : Nat) (argv : List String) (cmd : CliCommand)
    (pr : ParseResult) : CliContext :=
  { argc := argc, argv := argv, args := mkContextArgs cmd pr
    arg_count := cmd.args.length }

/-- Observable outcome of one cli_command_wrapper invocation.
notFoundInternal: the defensive not-found branch (logs an error, returns 1).
parseError name: arg_print_errors(stderr, end, argv[0]) was called naming
the command, and 1 is returned without invoking the callback.
callbackCall cb ctx: the user callback cb is invoked with the constructed
context ctx, and its return value becomes the wrapper's result. -/
inductive DispatchResult
  | notFoundInternal (name : String)
  | parseError (name : String)
  | callbackCall (callback : Option Nat) (ctx : CliContext)
deriving DecidableEq, Repr

/-- The registry lookup of cli_command_wrapper (cli-api.c lines 444-452): a
linear scan over the visible registry stopping at the first entry whose
descriptor name compares byte-equal to the invoked name. -/
def findEntry (l : List RegisteredCmd) (name : String) : Option RegisteredCmd :=
  l.find? (fun r => decide (r.cmd_def.name = some name))

/-- cli_command_wrapper (cli-api.c lines 441-513). argv is the token vector
(head = command name), pr the oracle outcome of the arg_parse call the
wrapper performs unconditionally on the entry's table. Note the wrapper has
no special case for zero-argument commands: it reaches arg_parse and the
context construction for them too (for such commands the slot's table was
never populated, so the real arg_parse call reads an uninitialized table —
undefined behavior in C; the oracle stands in for whatever it does). -/
def cli_command_wrapper (argv : List String) (pr : ParseResult)
    (s : CliState) : DispatchResult :=
  let name := argv.headD ""
  match findEntry s.regCmds name with
  | none => .notFoundInternal name
  | some reg =>
    if pr.nerrors ≠ 0 then .parseError name
    else .callbackCall reg.cmd_def.callback (mkContext argv.length argv reg.cmd_def pr)

/-- The integer the console engine receives from the wrapper, given an
interpretation cbs of the callback identifiers: 1 for the not-found and
parse-error branches, the callback's own return value otherwise. -/
def dispatchReturn (cbs : Nat → CliContext → Int) : DispatchResult → Int
  | .notFoundInternal _ => 1
  | .parseError _ => 1
  | .callbackCall (some cb) ctx => cbs cb ctx
  | .callbackCall none _ => 0

/-- True exactly when the argument kind is one of the three declared
enumerators, i.e. the registration switch does not hit its default branch. -/
def isValidType : CliArgType → Bool
  | .other _ => false
  | _ => true

/-- A zero-argument command descriptor (like the version command of the
example application): valid name and callback, arg_count = 0. -/
def verCmd : CliCommand :=
  { name := some "version", description := some "show version", hint := none
    callback := some 0, args := [] }

/-- A required integer argument with short spelling t and long spelling
timeout. -/
def intArgT : CliArg :=
  { short_opt := some "t", long_opt := some "timeout", datatype := some "<ms>"
    description := some "timeout in ms", type := .int, required := true }

/-- An argument whose kind field holds a value outside the declared
enumeration (the registration switch hits its default branch on it). -/
def badKindArg : CliArg :=
  { short_opt := some "x", long_opt := none, datatype := none
    description := none, type := .other 3, required := false }

/-- A descriptor whose second argument has an invalid kind; its first
argument is a well-formed integer argument. -/
def badCmd : CliCommand :=
  { name := some "bad", description := some "bad command", hint := none
    callback := some 1, args := [intArgT, badKindArg] }

/-- The state after successfully registering the zero-argument command into
an empty registry. -/
def sVer : CliState :=
  (cli_register_command (some verCmd) (fun _ => true) .ok ⟨[], 0⟩).2

/-- A parse outcome reporting no errors and no occurrences. -/
def prNoErr : ParseResult := ⟨0, fun _ => ⟨0, 0, ""⟩⟩

/-- Default argument record used with List.getD when indexing a declared
argument list at an in-range position (the default is never read there). -/
def defaultArg : CliArg :=
  { short_opt := none, long_opt := none, datatype := none
    description := none, type := .other 0, required := false }

/-- The fully zeroed argument-value slot (what C designated initialization
leaves in every slot the extraction switch does not write). -/
def zeroSlot : CliArgValue :=
  { int_value := 0, str_value := none, flag_value := false, count := 0 }

/-- The parser node the constructor selected by (kind, required) produces
when its allocation succeeds; equals the payload of constructNode a true
for the three declared kinds (the value at an invalid kind is junk, never
used under a validity hypothesis). -/
def nodeOf (a : CliArg) : ArgNode :=
  match a.type with
  | .int => .intNode a.required a.short_opt a.long_opt a.datatype a.description
  | .string => .strNode a.required a.short_opt a.long_opt a.datatype a.description
  | .flag => .litNode a.required a.short_opt a.long_opt a.description
  | .other _ => .endNode 0

/-- An optional integer argument with short spelling n and long spelling
repeat. -/
def optIntArg : CliArg :=
  { short_opt := some "n", long_opt := some "repeat", datatype := some "<count>"
    description := some "repetitions", type := .int, required := false }

/-- A required string argument with short spelling m and long spelling msg. -/
def msgArg : CliArg :=
  { short_opt := some "m", long_opt := some "msg", datatype := some "<text>"
    description := some "message", type := .string, required := true }

/-- An optional flag argument with short spelling u and long spelling
uppercase. -/
def upArg : CliArg :=
  { short_opt := some "u", long_opt := some "uppercase", datatype := none
    description := some "uppercase output", type := .flag, required := false }

/-- A command with one required integer argument. -/
def timeCmd : CliCommand :=
  { name := some "wait", description := some "wait ms", hint := none
    callback := some 2, args := [intArgT] }

/-- The registry entry produced by successfully registering timeCmd. -/
def waitEntry : RegisteredCmd :=
  { cmd_def := timeCmd
    argtable := [some (.intNode true (some "t") (some "timeout") (some "<ms>")
      (some "timeout in ms")), some (.endNode 2)]
    arg_count := 1 }

/-- The state after successfully registering timeCmd into an empty
registry. -/
def sWait : CliState :=
  (cli_register_command (some timeCmd) (fun _ => true) .ok ⟨[], 0⟩).2

/-- A parse outcome reporting one error. -/
def prOneErr : ParseResult := ⟨1, fun _ => ⟨0, 0, ""⟩⟩

/-- The echo scenario command of the spec: required string m/msg, optional
integer n/repeat, optional flag u/uppercase. -/
def echoCmd : CliCommand :=
  { name := some "echo", description := some "echo a message", hint := none
    callback := some 4, args := [msgArg, optIntArg, upArg] }

/-- The state after successfully registering echoCmd into an empty
registry. -/
def sEcho : CliState :=
  (cli_register_command (some echoCmd) (fun _ => true) .ok ⟨[], 0⟩).2

/-- Parse outcome for the echo scenario: msg occurred once with value hi,
repeat occurred once with value 2, uppercase did not occur. -/
def prEcho : ParseResult :=
  ⟨0, fun i => if i = 0 then ⟨1, 0, "hi"⟩ else if i = 1 then ⟨1, 2, ""⟩ else ⟨0, 0, ""⟩⟩

/-- A command with two integer arguments (used to exercise the rollback on
an allocation failure at index 1). -/
def pairCmd : CliCommand :=
  { name := some "pair", description := some "two ints", hint := none
    callback := some 3, args := [intArgT, optIntArg] }

/-- Allocation oracle under which only the constructor call for argument 0
succeeds. -/
def allocFirstOnly : Nat → Bool := fun j => decide (j = 0)

/-- First of two zero-argument commands sharing the name dup. -/
def dupA : CliCommand :=
  { name := some "dup", description := some "first dup", hint := none
    callback := some 5, args := [] }

/-- Second of two zero-argument commands sharing the name dup. -/
def dupB : CliCommand :=
  { name := some "dup", description := some "second dup", hint := none
    callback := some 6, args := [] }

/-- A state whose registry is full (CLI_MAX_COMMANDS entries). -/
def fullState : CliState :=
  ⟨List.replicate CLI_MAX_COMMANDS { cmd_def := verCmd, argtable := [], arg_count := 0 }, 0⟩

/-- A descriptor with a NULL name, rejected by cli_register_command. -/
def noNameCmd : CliCommand :=
  { name := none, description := none, hint := none, callback := some 9, args := [] }

/-- C1: the claim says every failing cli_register_command call leaves the
registry exactly as before, explicitly including the argument_count == 0
path. Evaluating the code on that path refutes it: for a zero-argument
descriptor the source stores the slot and increments s_cmd_count BEFORE
calling esp_console_cmd_register and returns that call's result without
undoing anything, so when the console registration fails (here with an
engine error code) the call fails yet the registry has grown by one
occupied slot. -/
theorem c1_zero_arg_failed_register_mutates_registry :
    (cli_register_command (some verCmd) (fun _ => true) (EspErr.fail 1) ⟨[], 0⟩).1 =
      EspErr.fail 1 ∧
    (cli_register_command (some verCmd) (fun _ => true) (EspErr.fail 1) ⟨[], 0⟩).1 ≠
      EspErr.ok ∧
    (cli_register_command (some verCmd) (fun _ => true) (EspErr.fail 1) ⟨[], 0⟩).2.regCmds =
      [{ cmd_def := verCmd, argtable := [], arg_count := 0 }] := by
  decide

/-- C2: the claim says a registered zero-argument command is dispatched as a
raw argc/argv call with no parser run and no context constructed.
Evaluating the wrapper refutes it: the source installs cli_command_wrapper
as the console callback for zero-argument commands too, and the wrapper has
no zero-argument bypass — it runs arg_parse (on the never-populated slot
table) and, on a no-error outcome, constructs a cli_context_t and invokes
the cli_callback_t with that context, not with raw argc/argv. -/
theorem c2_zero_arg_dispatch_builds_context :
    cli_command_wrapper ["version"] prNoErr sVer =
      DispatchResult.callbackCall (some 0)
        { argc := 1, argv := ["version"], args := [], arg_count := 0 } := by
  decide

/-- C3: the claim says a descriptor containing an argument of invalid kind
at any index i is rejected with no parser nodes left allocated. Evaluating
the code refutes it for i = 1: the default branch of the registration
switch returns ESP_ERR_INVALID_ARG without freeing the nodes already
constructed for indices [0, i), so registering badCmd (valid integer
argument at index 0, invalid kind at index 1) returns the invalid-argument
error with the registry count unchanged but one parser node still
allocated (live goes from 0 to 1). -/
theorem c3_invalid_kind_leaks_earlier_nodes :
    cli_register_command (some badCmd) (fun _ => true) EspErr.ok ⟨[], 0⟩ =
      (EspErr.invalidArg, ⟨[], 1⟩) := by
  decide

/-- C4: for every registered command with declared arguments and every
dispatch whose arg_parse outcome reports a positive error count, the
wrapper takes the error branch: it prints the parse errors to stderr naming
the invoked command (the parseError constructor records that
arg_print_errors(stderr, end, argv[0]) ran), returns the nonzero status 1,
and never reaches the user callback. -/
theorem c4_parse_error_short_circuits (s : CliState) (argv0 : String)
    (rest : List String) (pr : ParseResult) (reg : RegisteredCmd)
    (cbs : Nat → CliContext → Int)
    (hfind : findEntry s.regCmds argv0 = some reg)
    (hargs : 0 < reg.cmd_def.args.length)
    (herr : 0 < pr.nerrors) :
    cli_command_wrapper (argv0 :: rest) pr s = DispatchResult.parseError argv0 ∧
    dispatchReturn cbs (cli_command_wrapper (argv0 :: rest) pr s) = 1 ∧
    ∀ cb ctx, cli_command_wrapper (argv0 :: rest) pr s ≠ DispatchResult.callbackCall cb ctx := by
  have hne : pr.nerrors ≠ 0 := Nat.pos_iff_ne_zero.mp herr
  have h1 : cli_command_wrapper (argv0 :: rest) pr s = DispatchResult.parseError argv0 := by
    unfold cli_command_wrapper
    simp [hfind, hne]
  refine ⟨h1, ?_, ?_⟩
  · rw [h1]; rfl
  · intro cb ctx
    rw [h1]
    intro hcontra
    exact DispatchResult.noConfusion hcontra

/-- Witness for C4 at a concrete input: the wait command (one required
integer argument) is registered, and a dispatch whose parse reports one
error takes the error branch. -/
theorem c4_parse_error_short_circuits_witness :
    cli_command_wrapper ["wait"] prOneErr sWait = DispatchResult.parseError "wait" ∧
    dispatchReturn (fun _ _ => 0) (cli_command_wrapper ["wait"] prOneErr sWait) = 1 ∧
    ∀ cb ctx, cli_command_wrapper ["wait"] prOneErr sWait ≠ DispatchResult.callbackCall cb ctx :=
  c4_parse_error_short_circuits sWait "wait" [] prOneErr waitEntry (fun _ _ => 0)
    (by decide) (by decide) (by decide)

/-- If every argument kind up to index i is valid, every constructor call
before i succeeds and the one at i returns NULL, the argument loop ends in
the allocation-failure branch (indices are offset by the loop's starting
index n). -/
theorem compileArgs_allocFail_of (l : List CliArg) (n i : Nat) (allocOk : Nat → Bool)
    (hi : i < l.length)
    (hvalid : ∀ j, j < l.length → j ≤ i → isValidType ((l.getD j defaultArg).type) = true)
    (hok : ∀ j, j < i → allocOk (n + j) = true)
    (hfail : allocOk (n + i) = false) :
    compileArgs allocOk l n = CompileRes.allocFail := by
  induction l generalizing n i with
  | nil => simp at hi
  | cons a rest ih =>
    cases i with
    | zero =>
      have hf : allocOk n = false := by simpa using hfail
      have hv : isValidType a.type = true := by
        have := hvalid 0 (by simp) (Nat.le_refl 0)
        simpa using this
      cases ha : a.type <;> simp [ha, isValidType] at hv ⊢ <;>
        simp [compileArgs, constructNode, ha, hf]
    | succ j =>
      have h0 : allocOk n = true := by
        have := hok 0 (Nat.succ_pos j)
        simpa using this
      have hv : isValidType a.type = true := by
        have := hvalid 0 (by simp) (Nat.zero_le _)
        simpa using this
      have hrest : compileArgs allocOk rest (n + 1) = CompileRes.allocFail := by
        refine ih (n + 1) j (by simpa using hi) ?_ ?_ ?_
        · intro m hm hle
          have := hvalid (m + 1) (by simpa using hm) (Nat.succ_le_succ hle)
          simpa using this
        · intro m hm
          have := hok (m + 1) (Nat.succ_lt_succ hm)
          simpa [Nat.add_assoc, Nat.add_comm 1 m] using this
        · have : n + (j + 1) = n + 1 + j := by omega
          rw [← this]
          exact hfail
      cases ha : a.type <;> simp [ha, isValidType] at hv ⊢ <;>
        simp [compileArgs, constructNode, ha, h0, hrest]

/-- C5: for every descriptor with declared arguments whose kinds are valid
up to index i, if the constructor calls for indices [0, i) succeed and the
one at index i fails (returns NULL), cli_register_command frees every node
constructed so far (the live-node count is unchanged), returns the
no-memory error, and leaves the registry exactly as before (in particular
the count is not incremented). -/
theorem c5_alloc_failure_rolls_back (c : CliCommand) (allocOk : Nat → Bool)
    (consoleRet : EspErr) (s : CliState) (i : Nat)
    (hname : c.name ≠ none) (hcb : c.callback ≠ none)
    (hcap : s.regCmds.length < CLI_MAX_COMMANDS)
    (hi : i < c.args.length)
    (hvalid : ∀ j, j < c.args.length → j ≤ i →
      isValidType ((c.args.getD j defaultArg).type) = true)
    (hok : ∀ j, j < i → allocOk j = true)
    (hfail : allocOk i = false) :
    cli_register_command (some c) allocOk consoleRet s = (EspErr.noMem, s) := by
  have hcomp : compileArgs allocOk c.args 0 = CompileRes.allocFail := by
    refine compileArgs_allocFail_of c.args 0 i allocOk hi hvalid ?_ ?_
    · intro j hj
      simpa using hok j hj
    · simpa using hfail
  have hlen : ¬ c.args.length = 0 := by omega
  have hcapn : ¬ CLI_MAX_COMMANDS ≤ s.regCmds.length := Nat.not_le_of_lt hcap
  unfold cli_register_command
  simp [hname, hcb, hcapn, hlen, hcomp]

/-- Witness for C5 at a concrete input: registering the two-integer command
pair while only the first constructor call succeeds returns the no-memory
error with the state unchanged. -/
theorem c5_alloc_failure_rolls_back_witness :
    cli_register_command (some pairCmd) allocFirstOnly EspErr.ok ⟨[], 0⟩ =
      (EspErr.noMem, ⟨[], 0⟩) :=
  c5_alloc_failure_rolls_back pairCmd allocFirstOnly EspErr.ok ⟨[], 0⟩ 1
    (by decide) (by decide) (by decide) (by decide) (by decide) (by decide) (by decide)

/-- Slot i of the extraction loop's output is the extraction of argument i's
declared kind applied to node i's post-parse state. -/
theorem mkContextArgsAux_getD (pr : ParseResult) (l : List CliArg) (n i : Nat)
    (hi : i < l.length) :
    (mkContextArgsAux pr l n).getD i zeroSlot =
      extractArg ((l.getD i defaultArg).type) (pr.argStates (n + i)) := by
  induction l generalizing n i with
  | nil => simp at hi
  | cons a rest ih =>
    cases i with
    | zero => simp [mkContextArgsAux]
    | succ j =>
      have hj : j < rest.length := by simpa using hi
      have := ih (n + 1) j hj
      simpa [mkContextArgsAux, Nat.add_assoc, Nat.add_comm 1 j] using this

/-- C6: for every dispatch that finds its registry entry and whose parse
reports no errors, the wrapper invokes the callback with the constructed
context, and the value slot for each declared argument i (of valid kind)
carries the node's occurrence count; when the argument did not occur the
slot is fully defaulted (0 / null / false, count 0), and when it occurred
the kind-specific field holds the first occurrence's value (integer
ival[0], string sval[0], true for a flag). -/
theorem c6_extracted_values (s : CliState) (argv0 : String) (rest : List String)
    (pr : ParseResult) (reg : RegisteredCmd) (i : Nat)
    (hfind : findEntry s.regCmds argv0 = some reg)
    (hnoerr : pr.nerrors = 0)
    (hi : i < reg.cmd_def.args.length)
    (hvalid : isValidType ((reg.cmd_def.args.getD i defaultArg).type) = true) :
    cli_command_wrapper (argv0 :: rest) pr s =
      DispatchResult.callbackCall reg.cmd_def.callback
        (mkContext (argv0 :: rest).length (argv0 :: rest) reg.cmd_def pr) ∧
    ((mkContext (argv0 :: rest).length (argv0 :: rest) reg.cmd_def pr).args.getD i
        zeroSlot).count = (pr.argStates i).count ∧
    ((pr.argStates i).count = 0 →
      (mkContext (argv0 :: rest).length (argv0 :: rest) reg.cmd_def pr).args.getD i
        zeroSlot = zeroSlot) ∧
    (0 < (pr.argStates i).count →
      ((reg.cmd_def.args.getD i defaultArg).type = CliArgType.int →
        ((mkContext (argv0 :: rest).length (argv0 :: rest) reg.cmd_def pr).args.getD i
          zeroSlot).int_value = (pr.argStates i).ival0) ∧
      ((reg.cmd_def.args.getD i defaultArg).type = CliArgType.string →
        ((mkContext (argv0 :: rest).length (argv0 :: rest) reg.cmd_def pr).args.getD i
          zeroSlot).str_value = some (pr.argStates i).sval0) ∧
      ((reg.cmd_def.args.getD i defaultArg).type = CliArgType.flag →
        ((mkContext (argv0 :: rest).length (argv0 :: rest) reg.cmd_def pr).args.getD i
          zeroSlot).flag_value = true)) := by
  have hslot : (mkContext (argv0 :: rest).length (argv0 :: rest) reg.cmd_def pr).args.getD i
      zeroSlot = extractArg ((reg.cmd_def.args.getD i defaultArg).type) (pr.argStates i) := by
    have := mkContextArgsAux_getD pr reg.cmd_def.args 0 i hi
    simpa [mkContext, mkContextArgs] using this
  refine ⟨?_, ?_, ?_, ?_⟩
  · unfold cli_command_wrapper
    simp [hfind, hnoerr]
  · rw [hslot]
    cases hty : (reg.cmd_def.args.getD i defaultArg).type with
    | int => simp [extractArg]
    | string => simp [extractArg]
    | flag => simp [extractArg]
    | other n => rw [hty] at hvalid; simp [isValidType] at hvalid
  · intro hzero
    rw [hslot]
    cases hty : (reg.cmd_def.args.getD i defaultArg).type with
    | int => simp [extractArg, hzero, zeroSlot]
    | string => simp [extractArg, hzero, zeroSlot]
    | flag => simp [extractArg, hzero, zeroSlot]
    | other n => rw [hty] at hvalid; simp [isValidType] at hvalid
  · intro hpos
    refine ⟨?_, ?_, ?_⟩ <;> intro hty <;> rw [hslot, hty] <;> simp [extractArg, hpos]

/-- Witness for C6 at the spec's echo scenario: argument 2 (the optional
uppercase flag) did not occur, so its slot is fully defaulted; the wrapper
invokes the callback with the constructed context. -/
theorem c6_extracted_values_witness :
    cli_command_wrapper ["echo", "-m", "hi", "-n", "2"] prEcho sEcho =
      DispatchResult.callbackCall
        ((RegisteredCmd.mk echoCmd [] 0).cmd_def.callback)
        (mkContext 5 ["echo", "-m", "hi", "-n", "2"]
          ((RegisteredCmd.mk echoCmd [] 0).cmd_def) prEcho) ∧
    ((mkContext 5 ["echo", "-m", "hi", "-n", "2"]
        ((RegisteredCmd.mk echoCmd [] 0).cmd_def) prEcho).args.getD 2 zeroSlot).count =
      (prEcho.argStates 2).count ∧
    ((prEcho.argStates 2).count = 0 →
      (mkContext 5 ["echo", "-m", "hi", "-n", "2"]
        ((RegisteredCmd.mk echoCmd [] 0).cmd_def) prEcho).args.getD 2 zeroSlot = zeroSlot) ∧
    (0 < (prEcho.argStates 2).count →
      (((RegisteredCmd.mk echoCmd [] 0).cmd_def.args.getD 2 defaultArg).type = CliArgType.int →
        ((mkContext 5 ["echo", "-m", "hi", "-n", "2"]
          ((RegisteredCmd.mk echoCmd [] 0).cmd_def) prEcho).args.getD 2 zeroSlot).int_value =
          (prEcho.argStates 2).ival0) ∧
      (((RegisteredCmd.mk echoCmd [] 0).cmd_def.args.getD 2 defaultArg).type = CliArgType.string →
        ((mkContext 5 ["echo", "-m", "hi", "-n", "2"]
          ((RegisteredCmd.mk echoCmd [] 0).cmd_def) prEcho).args.getD 2 zeroSlot).str_value =
          some (prEcho.argStates 2).sval0) ∧
      (((RegisteredCmd.mk echoCmd [] 0).cmd_def.args.getD 2 defaultArg).type = CliArgType.flag →
        ((mkContext 5 ["echo", "-m", "hi", "-n", "2"]
          ((RegisteredCmd.mk echoCmd [] 0).cmd_def) prEcho).args.getD 2 zeroSlot).flag_value =
          true)) := by
  exact c6_extracted_values sEcho "echo" ["-m", "hi", "-n", "2"] prEcho
    ⟨echoCmd,
      [some (.strNode true (some "m") (some "msg") (some "<text>") (some "message")),
       some (.intNode false (some "n") (some "repeat") (some "<count>") (some "repetitions")),
       some (.litNode false (some "u") (some "uppercase") (some "uppercase output")),
       some (.endNode 4)], 3⟩ 2
    (by decide) (by decide) (by decide) (by decide)

/-- For a valid kind, a successful constructor call yields exactly the node
selected by (kind, required). -/
theorem constructNode_of_valid (a : CliArg) (hv : isValidType a.type = true) :
    constructNode a true = NodeRes.node (nodeOf a) := by
  cases ha : a.type with
  | int => simp [constructNode, nodeOf, ha]
  | string => simp [constructNode, nodeOf, ha]
  | flag => simp [constructNode, nodeOf, ha]
  | other m => rw [ha] at hv; simp [isValidType] at hv

/-- When every declared kind is valid and every constructor call succeeds,
the argument loop produces one node per argument in declared order. -/
theorem compileArgs_done_of (l : List CliArg) (n : Nat) (allocOk : Nat → Bool)
    (hvalid : ∀ j, j < l.length → isValidType ((l.getD j defaultArg).type) = true)
    (hok : ∀ j, j < l.length → allocOk (n + j) = true) :
    compileArgs allocOk l n = CompileRes.done (l.map nodeOf) := by
  induction l generalizing n with
  | nil => simp [compileArgs]
  | cons a rest ih =>
    have h0 : allocOk n = true := by simpa using hok 0 (by simp)
    have hv : isValidType a.type = true := by simpa using hvalid 0 (by simp)
    have hrest : compileArgs allocOk rest (n + 1) = CompileRes.done (rest.map nodeOf) := by
      refine ih (n + 1) ?_ ?_
      · intro j hj
        simpa using hvalid (j + 1) (by simpa using hj)
      · intro j hj
        have := hok (j + 1) (by simpa using hj)
        simpa [Nat.add_assoc, Nat.add_comm 1 j] using this
    have hcons : constructNode a (allocOk n) = NodeRes.node (nodeOf a) := by
      rw [h0]
      exact constructNode_of_valid a hv
    simp [compileArgs, hcons, hrest]

/-- Successful registration of a descriptor with declared arguments: the
compiled table (one node per argument plus the end node) is published in a
fresh registry entry appended after the existing ones, and the live-node
count grows by the table size. -/
theorem register_ok_of_pos (c : CliCommand) (allocOk : Nat → Bool) (s : CliState)
    (hname : ¬ c.name = none) (hcb : ¬ c.callback = none)
    (hcap : s.regCmds.length < CLI_MAX_COMMANDS)
    (hpos : 0 < c.args.length)
    (hvalid : ∀ j, j < c.args.length → isValidType ((c.args.getD j defaultArg).type) = true)
    (halloc : ∀ j, j ≤ c.args.length → allocOk j = true) :
    cli_register_command (some c) allocOk EspErr.ok s =
      (EspErr.ok,
        { regCmds := s.regCmds ++
            [{ cmd_def := c,
               argtable := (c.args.map nodeOf).map some ++
                 [some (.endNode (c.args.length + 1))],
               arg_count := c.args.length }],
          live := s.live + c.args.length + 1 }) := by
  have hcomp : compileArgs allocOk c.args 0 = CompileRes.done (c.args.map nodeOf) := by
    refine compileArgs_done_of c.args 0 allocOk hvalid ?_
    intro j hj
    simpa using halloc j (Nat.le_of_lt hj)
  have hend : allocOk c.args.length = true := halloc _ (Nat.le_refl _)
  have hlen : ¬ c.args.length = 0 := by omega
  unfold cli_register_command
  simp [hname, hcb, Nat.not_le_of_lt hcap, hlen, hcomp, hend, Nat.add_assoc]

/-- Successful or failing registration of a zero-argument descriptor: the
slot is stored and the count incremented unconditionally, and the console
engine's return value is passed through. -/
theorem register_zero_arg (c : CliCommand) (allocOk : Nat → Bool) (ret : EspErr)
    (s : CliState)
    (hname : ¬ c.name = none) (hcb : ¬ c.callback = none)
    (hcap : s.regCmds.length < CLI_MAX_COMMANDS)
    (hzero : c.args.length = 0) :
    cli_register_command (some c) allocOk ret s =
      (ret, { s with
        regCmds := s.regCmds ++ [{ cmd_def := c, argtable := [], arg_count := 0 }] }) := by
  unfold cli_register_command
  simp [hname, hcb, Nat.not_le_of_lt hcap, hzero]

/-- Indexing the compiled table below the argument count returns the node
compiled for that argument. -/
theorem table_getD_lt (l : List CliArg) (e : Option ArgNode) (j : Nat)
    (hj : j < l.length) :
    ((l.map nodeOf).map some ++ [e]).getD j none = some (nodeOf (l.getD j defaultArg)) := by
  induction l generalizing j with
  | nil => simp at hj
  | cons a rest ih =>
    cases j with
    | zero => simp
    | succ m =>
      have hm : m < rest.length := by simpa using hj
      simpa using ih m hm

/-- Indexing the compiled table at the argument count returns the slot
holding the end node. -/
theorem table_getD_end (l : List CliArg) (e : Option ArgNode) :
    ((l.map nodeOf).map some ++ [e]).getD l.length none = e := by
  induction l with
  | nil => simp
  | cons a rest ih => simpa using ih

/-- C7: for every valid descriptor with k declared arguments (1 ≤ k ≤
CLI_MAX_ARGS), all kinds valid and all constructor calls succeeding, after
a successful cli_register_command on a registry not yet holding that name
the registry holds exactly one entry for the name; its parser table has
exactly k + 1 slots: for each j < k the node selected by (kind, required)
of declared argument j, in declared order, and at index k the terminal end
node sized to accumulate k + 1 errors (arg_end(k + 1)). -/
theorem c7_register_table_shape (c : CliCommand) (allocOk : Nat → Bool)
    (s : CliState) (n : String)
    (hname : c.name = some n) (hcb : ¬ c.callback = none)
    (hk1 : 1 ≤ c.args.length) (hk2 : c.args.length ≤ CLI_MAX_ARGS)
    (hcap : s.regCmds.length < CLI_MAX_COMMANDS)
    (hvalid : ∀ j, j < c.args.length → isValidType ((c.args.getD j defaultArg).type) = true)
    (halloc : ∀ j, j ≤ c.args.length → allocOk j = true)
    (hfresh : ∀ e ∈ s.regCmds, ¬ e.cmd_def.name = some n) :
    ∃ entry,
      cli_register_command (some c) allocOk EspErr.ok s =
        (EspErr.ok, { regCmds := s.regCmds ++ [entry], live := s.live + c.args.length + 1 }) ∧
      entry.cmd_def = c ∧
      entry.arg_count = c.args.length ∧
      entry.argtable.length = c.args.length + 1 ∧
      (∀ j, j < c.args.length →
        entry.argtable.getD j none = some (nodeOf (c.args.getD j defaultArg))) ∧
      entry.argtable.getD c.args.length none = some (ArgNode.endNode (c.args.length + 1)) ∧
      ((s.regCmds ++ [entry]).filter
        (fun e => decide (e.cmd_def.name = some n))).length = 1 := by
  have hname2 : ¬ c.name = none := by rw [hname]; exact Option.noConfusion
  refine ⟨{ cmd_def := c,
            argtable := (c.args.map nodeOf).map some ++
              [some (.endNode (c.args.length + 1))],
            arg_count := c.args.length }, ?_, rfl, rfl, ?_, ?_, ?_, ?_⟩
  · exact register_ok_of_pos c allocOk s hname2 hcb hcap hk1 hvalid halloc
  · simp
  · intro j hj
    exact table_getD_lt c.args _ j hj
  · exact table_getD_end c.args _
  · rw [List.filter_append]
    have h1 : s.regCmds.filter (fun e => decide (e.cmd_def.name = some n)) = [] := by
      rw [List.filter_eq_nil]
      intro e he
      simpa using hfresh e he
    rw [h1]
    simp [hname]

/-- Witness for C7 at a concrete input: the two-integer command pair is
registered into an empty registry; its table has three slots (two integer
nodes and arg_end(3)) and the registry holds exactly one entry named
pair. -/
theorem c7_register_table_shape_witness :
    ∃ entry : RegisteredCmd,
      cli_register_command (some pairCmd) (fun _ => true) EspErr.ok ⟨[], 0⟩ =
        (EspErr.ok, { regCmds := [] ++ [entry], live := 0 + pairCmd.args.length + 1 }) ∧
      entry.cmd_def = pairCmd ∧
      entry.arg_count = pairCmd.args.length ∧
      entry.argtable.length = pairCmd.args.length + 1 ∧
      (∀ j, j < pairCmd.args.length →
        entry.argtable.getD j none = some (nodeOf (pairCmd.args.getD j defaultArg))) ∧
      entry.argtable.getD pairCmd.args.length none =
        some (ArgNode.endNode (pairCmd.args.length + 1)) ∧
      (([] ++ [entry]).filter
        (fun e : RegisteredCmd => decide (e.cmd_def.name = some "pair"))).length = 1 :=
  c7_register_table_shape pairCmd (fun _ => true) ⟨[], 0⟩ "pair"
    (by decide) (by decide) (by decide) (by decide) (by decide) (by decide) (by decide)
    (by simp)

/-- The linear lookup skips every entry whose name does not match. -/
theorem findEntry_skip (l1 l2 : List RegisteredCmd) (n : String)
    (h : ∀ e ∈ l1, ¬ e.cmd_def.name = some n) :
    findEntry (l1 ++ l2) n = findEntry l2 n := by
  induction l1 with
  | nil => simp
  | cons a rest ih =>
    have ha : ¬ a.cmd_def.name = some n := h a (by simp)
    have htail : ∀ e ∈ rest, ¬ e.cmd_def.name = some n := by
      intro e he
      exact h e (by simp [he])
    unfold findEntry at ih ⊢
    rw [List.cons_append, List.find?_cons_of_neg _ (by simpa using ha)]
    exact ih htail

/-- The linear lookup stops at the head when its name matches. -/
theorem findEntry_cons_self (e : RegisteredCmd) (l : List RegisteredCmd) (n : String)
    (h : e.cmd_def.name = some n) :
    findEntry (e :: l) n = some e := by
  unfold findEntry
  exact List.find?_cons_of_pos _ (by simpa using h)

/-- C8: registering two valid commands sharing one name both succeed (the
registration path performs no uniqueness check), and every dispatch of that
name resolves to the first-registered entry: the lookup is a linear scan in
registration order stopping at the first byte-exact match, so the wrapper
invokes the first command's callback with the first command's context. -/
theorem c8_duplicate_first_match (s : CliState) (c1 c2 : CliCommand) (n : String)
    (a1 a2 : Nat → Bool) (rest : List String) (pr : ParseResult)
    (hn1 : c1.name = some n) (hn2 : c2.name = some n)
    (hcb1 : ¬ c1.callback = none) (hcb2 : ¬ c2.callback = none)
    (hv1 : ∀ j, j < c1.args.length → isValidType ((c1.args.getD j defaultArg).type) = true)
    (hv2 : ∀ j, j < c2.args.length → isValidType ((c2.args.getD j defaultArg).type) = true)
    (ha1 : ∀ j, j ≤ c1.args.length → a1 j = true)
    (ha2 : ∀ j, j ≤ c2.args.length → a2 j = true)
    (hcap : s.regCmds.length + 1 < CLI_MAX_COMMANDS)
    (hfresh : ∀ e ∈ s.regCmds, ¬ e.cmd_def.name = some n)
    (hnoerr : pr.nerrors = 0) :
    ∃ s1 s2 : CliState, ∃ e1 e2 : RegisteredCmd,
      cli_register_command (some c1) a1 EspErr.ok s = (EspErr.ok, s1) ∧
      cli_register_command (some c2) a2 EspErr.ok s1 = (EspErr.ok, s2) ∧
      s2.regCmds = (s.regCmds ++ [e1]) ++ [e2] ∧
      e1.cmd_def = c1 ∧ e2.cmd_def = c2 ∧
      findEntry s2.regCmds n = some e1 ∧
      cli_command_wrapper (n :: rest) pr s2 =
        DispatchResult.callbackCall c1.callback
          (mkContext (n :: rest).length (n :: rest) c1 pr) := by
  have hname1 : ¬ c1.name = none := by rw [hn1]; exact Option.noConfusion
  have hname2 : ¬ c2.name = none := by rw [hn2]; exact Option.noConfusion
  have hcap1 : s.regCmds.length < CLI_MAX_COMMANDS := by omega
  -- first registration
  have step1 : ∃ s1 : CliState, ∃ e1 : RegisteredCmd,
      cli_register_command (some c1) a1 EspErr.ok s = (EspErr.ok, s1) ∧
      s1.regCmds = s.regCmds ++ [e1] ∧ e1.cmd_def = c1 := by
    by_cases hz : c1.args.length = 0
    · exact ⟨_, _, register_zero_arg c1 a1 EspErr.ok s hname1 hcb1 hcap1 hz, rfl, rfl⟩
    · exact ⟨_, _, register_ok_of_pos c1 a1 s hname1 hcb1 hcap1 (by omega) hv1 ha1,
        rfl, rfl⟩
  obtain ⟨s1, e1, hreg1, hs1, he1⟩ := step1
  have hcap2 : s1.regCmds.length < CLI_MAX_COMMANDS := by
    rw [hs1]
    simp
    omega
  have step2 : ∃ s2 : CliState, ∃ e2 : RegisteredCmd,
      cli_register_command (some c2) a2 EspErr.ok s1 = (EspErr.ok, s2) ∧
      s2.regCmds = s1.regCmds ++ [e2] ∧ e2.cmd_def = c2 := by
    by_cases hz : c2.args.length = 0
    · exact ⟨_, _, register_zero_arg c2 a2 EspErr.ok s1 hname2 hcb2 hcap2 hz, rfl, rfl⟩
    · exact ⟨_, _, register_ok_of_pos c2 a2 s1 hname2 hcb2 hcap2 (by omega) hv2 ha2,
        rfl, rfl⟩
  obtain ⟨s2, e2, hreg2, hs2, he2⟩ := step2
  have hs2' : s2.regCmds = (s.regCmds ++ [e1]) ++ [e2] := by rw [hs2, hs1]
  have hfind : findEntry s2.regCmds n = some e1 := by
    rw [hs2', List.append_assoc]
    rw [findEntry_skip s.regCmds ([e1] ++ [e2]) n hfresh]
    exact findEntry_cons_self e1 [e2] n (by rw [he1]; exact hn1)
  refine ⟨s1, s2, e1, e2, hreg1, hreg2, hs2', he1, he2, hfind, ?_⟩
  unfold cli_command_wrapper
  simp [hfind, hnoerr, he1]

/-- Witness for C8 at a concrete input: the two zero-argument commands dupA
and dupB share the name dup; both registrations succeed and dispatching dup
calls dupA's callback. -/
theorem c8_duplicate_first_match_witness :
    ∃ s1 s2 : CliState, ∃ e1 e2 : RegisteredCmd,
      cli_register_command (some dupA) (fun _ => true) EspErr.ok ⟨[], 0⟩ = (EspErr.ok, s1) ∧
      cli_register_command (some dupB) (fun _ => true) EspErr.ok s1 = (EspErr.ok, s2) ∧
      s2.regCmds = (([] : List RegisteredCmd) ++ [e1]) ++ [e2] ∧
      e1.cmd_def = dupA ∧ e2.cmd_def = dupB ∧
      findEntry s2.regCmds "dup" = some e1 ∧
      cli_command_wrapper ["dup"] prNoErr s2 =
        DispatchResult.callbackCall dupA.callback
          (mkContext (["dup"] : List String).length ["dup"] dupA prNoErr) :=
  c8_duplicate_first_match ⟨[], 0⟩ dupA dupB "dup" (fun _ => true) (fun _ => true)
    [] prNoErr (by decide) (by decide) (by decide) (by decide) (by decide) (by decide)
    (by decide) (by decide) (by decide) (by simp) (by decide)

/-- When the sequential loop consumes a first block of descriptors fully
successfully, running it on the concatenation continues from the reached
state at the shifted index. -/
theorem registerSeq_append (allocOks : Nat → Nat → Bool) (consoleRets : Nat → EspErr)
    (l1 l2 : List CliCommand) (i : Nat) (s s1 : CliState)
    (h : registerSeq allocOks consoleRets l1 i s = (EspErr.ok, s1)) :
    registerSeq allocOks consoleRets (l1 ++ l2) i s =
      registerSeq allocOks consoleRets l2 (i + l1.length) s1 := by
  induction l1 generalizing i s with
  | nil =>
    have hnil : registerSeq allocOks consoleRets [] i s = (EspErr.ok, s) := rfl
    rw [hnil] at h
    injection h with h1 h2
    subst h2
    simp
  | cons c rest ih =>
    have hcons : ∀ (l : List CliCommand) (j : Nat) (t : CliState),
        registerSeq allocOks consoleRets (c :: l) j t =
          (if (cli_register_command (some c) (allocOks j) (consoleRets j) t).1 = EspErr.ok
           then registerSeq allocOks consoleRets l (j + 1)
             (cli_register_command (some c) (allocOks j) (consoleRets j) t).2
           else cli_register_command (some c) (allocOks j) (consoleRets j) t) :=
      fun l j t => rfl
    rw [hcons] at h
    rw [List.cons_append, hcons]
    by_cases hr : (cli_register_command (some c) (allocOks i) (consoleRets i) s).1 = EspErr.ok
    · rw [if_pos hr] at h ⊢
      rw [ih (i + 1) _ h]
      have harith : i + 1 + rest.length = i + (c :: rest).length := by
        simp only [List.length_cons]
        omega
      rw [harith]
    · rw [if_neg hr] at h
      exact absurd (by simpa using congrArg Prod.fst h) hr

/-- C9: cli_register_commands rejects a NULL list and a zero count with the
invalid-argument error before registering anything (state unchanged); for a
nonempty list it registers the descriptors sequentially in list order,
stops at the first registration that fails, returns that failure's error
code, and keeps (does not roll back) everything the earlier successful
registrations did: the final state is exactly the failing call's post-state
reached from the state after the successful block, and the descriptors
after the failure are never processed. -/
theorem c9_register_many_sequential (allocOks : Nat → Nat → Bool)
    (consoleRets : Nat → EspErr) :
    (∀ s : CliState, cli_register_commands none allocOks consoleRets s =
      (EspErr.invalidArg, s)) ∧
    (∀ s : CliState, cli_register_commands (some []) allocOks consoleRets s =
      (EspErr.invalidArg, s)) ∧
    (∀ (l1 l2 : List CliCommand) (c : CliCommand) (s s1 s2 : CliState) (e : EspErr),
      registerSeq allocOks consoleRets l1 0 s = (EspErr.ok, s1) →
      cli_register_command (some c) (allocOks l1.length) (consoleRets l1.length) s1 =
        (e, s2) →
      ¬ e = EspErr.ok →
      cli_register_commands (some (l1 ++ c :: l2)) allocOks consoleRets s = (e, s2)) := by
  refine ⟨fun s => rfl, fun s => rfl, ?_⟩
  intro l1 l2 c s s1 s2 e h1 h2 he
  have hlen : ¬ (l1 ++ c :: l2).length = 0 := by simp
  have hsome : cli_register_commands (some (l1 ++ c :: l2)) allocOks consoleRets s =
      (if (l1 ++ c :: l2).length = 0 then (EspErr.invalidArg, s)
       else registerSeq allocOks consoleRets (l1 ++ c :: l2) 0 s) := rfl
  rw [hsome, if_neg hlen]
  rw [registerSeq_append allocOks consoleRets l1 (c :: l2) 0 s s1 h1]
  have hcons : registerSeq allocOks consoleRets (c :: l2) (0 + l1.length) s1 =
      (if (cli_register_command (some c) (allocOks (0 + l1.length))
            (consoleRets (0 + l1.length)) s1).1 = EspErr.ok
       then registerSeq allocOks consoleRets l2 (0 + l1.length + 1)
         (cli_register_command (some c) (allocOks (0 + l1.length))
           (consoleRets (0 + l1.length)) s1).2
       else cli_register_command (some c) (allocOks (0 + l1.length))
         (consoleRets (0 + l1.length)) s1) := rfl
  rw [hcons]
  have hz : 0 + l1.length = l1.length := by omega
  rw [hz, h2]
  simp [he]

/-- Witness for C9 at a concrete input: a batch of three descriptors where
the first registers successfully, the second has a NULL name and fails with
the invalid-argument error; the loop stops there, the error is propagated,
and the first registration is kept (not rolled back) while the third
descriptor is never registered. -/
theorem c9_register_many_sequential_witness :
    cli_register_commands (some [verCmd, noNameCmd, timeCmd])
      (fun _ _ => true) (fun _ => EspErr.ok) ⟨[], 0⟩ =
      (EspErr.invalidArg,
        ⟨[{ cmd_def := verCmd, argtable := [], arg_count := 0 }], 0⟩) :=
  (c9_register_many_sequential (fun _ _ => true) (fun _ => EspErr.ok)).2.2
    [verCmd] [timeCmd] noNameCmd ⟨[], 0⟩
    ⟨[{ cmd_def := verCmd, argtable := [], arg_count := 0 }], 0⟩
    ⟨[{ cmd_def := verCmd, argtable := [], arg_count := 0 }], 0⟩
    EspErr.invalidArg (by decide) (by decide) (by decide)

/-- C10: cli_register_simple_command never touches the registry: for every
call with non-null name and callback the state (visible registry and live
parser nodes) is returned unchanged, so simple commands consume no registry
slot and are not subject to CLI_MAX_COMMANDS; in particular, with the
registry full, a simple command still registers successfully whenever the
console engine accepts it. -/
theorem c10_simple_register_outside_registry (name descr : Option String)
    (cb : Option Nat) (ret : EspErr) (s : CliState)
    (hname : ¬ name = none) (hcb : ¬ cb = none) :
    (cli_register_simple_command name descr cb ret s).2 = s ∧
    (s.regCmds.length = CLI_MAX_COMMANDS → ret = EspErr.ok →
      (cli_register_simple_command name descr cb ret s).1 = EspErr.ok) := by
  unfold cli_register_simple_command
  constructor
  · simp [hname, hcb]
  · intro _ hret
    simp [hname, hcb, hret]

/-- Witness for C10 at a concrete input: with the registry already holding
CLI_MAX_COMMANDS entries, a simple command leaves the state unchanged and
still registers successfully. -/
theorem c10_simple_register_outside_registry_witness :
    (cli_register_simple_command (some "reboot") (some "reboot the chip")
      (some 7) EspErr.ok fullState).2 = fullState ∧
    (fullState.regCmds.length = CLI_MAX_COMMANDS → EspErr.ok = EspErr.ok →
      (cli_register_simple_command (some "reboot") (some "reboot the chip")
        (some 7) EspErr.ok fullState).1 = EspErr.ok) :=
  c10_simple_register_outside_registry (some "reboot") (some "reboot the chip")
    (some 7) EspErr.ok fullState (by decide) (by decide)
